import Mathlib

/-
  Verification of the Pump Power Calculator (src/app.py).

  The computational core of the application is a handful of pure functions
  over real-valued inputs (Python floats).  We embed them shallowly over ℚ,
  which keeps every definition executable and every concrete evaluation
  decidable, while faithfully reproducing the source's arithmetic
  (all constants in the source are decimal literals, hence rational).
-/

namespace PumpPower

/-- Standard gravity constant `G_SI` from the source (m/s²). -/
def G_SI : ℚ := 9.80665

/-- Reference water density at 4 °C (kg/m³), `RHO_WATER_4C` in the source. -/
def RHO_WATER_4C : ℚ := 1000.0

/-- The six flow-rate units of the source's `FLOW_UNITS` table. -/
inductive FlowUnit
  | m3PerS
  | lPerS
  | lPerMin
  | m3PerH
  | gpmUS
  | ft3PerS
deriving DecidableEq, Repr

/-- `FLOW_UNITS`: multiplicative factor taking each flow unit to m³/s. -/
def FLOW_UNITS : FlowUnit → ℚ
  | .m3PerS => 1.0
  | .lPerS => 1e-3
  | .lPerMin => 1e-3 / 60.0
  | .m3PerH => 1.0 / 3600.0
  | .gpmUS => 0.003785411784 / 60.0
  | .ft3PerS => 0.028316846592

/-- The two head units of the source's `HEAD_UNITS` table. -/
inductive HeadUnit
  | m
  | ft
deriving DecidableEq, Repr

/-- `HEAD_UNITS`: multiplicative factor taking each head unit to metres. -/
def HEAD_UNITS : HeadUnit → ℚ
  | .m => 1.0
  | .ft => 0.3048

/-- The two efficiency units of the source's `EFF_UNITS` table. -/
inductive EffUnit
  | percent
  | fraction
deriving DecidableEq, Repr

/-- `EFF_UNITS`: multiplicative factor taking each efficiency unit to a fraction. -/
def EFF_UNITS : EffUnit → ℚ
  | .percent => 0.01
  | .fraction => 1.0

/-- `to_si_flow(value, unit)`: flow in m³/s. -/
def to_si_flow (value : ℚ) (unit : FlowUnit) : ℚ :=
  value * FLOW_UNITS unit

/-- `to_si_head(value, unit)`: head in metres. -/
def to_si_head (value : ℚ) (unit : HeadUnit) : ℚ :=
  value * HEAD_UNITS unit

/-- `to_fraction(value, unit)`: efficiency as a fraction, clamped into
[1e-6, 0.999999]. -/
def to_fraction (value : ℚ) (unit : EffUnit) : ℚ :=
  max 1e-6 (min 0.999999 (value * EFF_UNITS unit))

/-- `sg_to_density(sg)`: density in kg/m³ from specific gravity, with the
specific gravity floored at 1e-6. -/
def sg_to_density (sg : ℚ) : ℚ :=
  max 1e-6 sg * RHO_WATER_4C

/-- `hydraulic_power_kw(rho, g, Q, H)`: hydraulic power in kW. -/
def hydraulic_power_kw (rho g Q H : ℚ) : ℚ :=
  (rho * g * Q * H) / 1000.0

/-- `shaft_power_kw(P_h_kw, eff_frac)`: shaft power in kW. -/
def shaft_power_kw (P_h_kw eff_frac : ℚ) : ℚ :=
  P_h_kw / eff_frac

/-- `kw_to_hp(kw)`: horsepower from kilowatts. -/
def kw_to_hp (kw : ℚ) : ℚ :=
  kw * 1.34102209

/-- The raw inputs gathered by the sidebar of the app: flow value and unit,
head value and unit, specific gravity, the density-override checkbox and its
custom density, efficiency value and unit, and gravity. -/
structure Inputs where
  Q_val : ℚ
  Q_unit : FlowUnit
  H_val : ℚ
  H_unit : HeadUnit
  sg : ℚ
  rho_override : Bool
  rho_custom : ℚ
  eff_val : ℚ
  eff_unit : EffUnit
  g_val : ℚ
deriving DecidableEq, Repr

/-- The values the app computes from the inputs: the SI intermediates and the
four power results. -/
structure Results where
  Q_si : ℚ
  H_si : ℚ
  eta : ℚ
  rho : ℚ
  P_h_kw : ℚ
  P_shaft_kw : ℚ
  P_h_hp : ℚ
  P_shaft_hp : ℚ
deriving DecidableEq, Repr

/-- The full evaluation pipeline of the app (src/app.py lines 92-101):
convert inputs to SI, pick the density (custom override wins over specific
gravity), then compute hydraulic and shaft power in kW and HP. -/
def computePumpPower (inp : Inputs) : Results :=
  let Q_si := to_si_flow inp.Q_val inp.Q_unit
  let H_si := to_si_head inp.H_val inp.H_unit
  let eta := to_fraction inp.eff_val inp.eff_unit
  let rho := if inp.rho_override then inp.rho_custom else sg_to_density inp.sg
  let P_h_kw := hydraulic_power_kw rho inp.g_val Q_si H_si
  let P_shaft_kw := shaft_power_kw P_h_kw eta
  let P_h_hp := kw_to_hp P_h_kw
  let P_shaft_hp := kw_to_hp P_shaft_kw
  ⟨Q_si, H_si, eta, rho, P_h_kw, P_shaft_kw, P_h_hp, P_shaft_hp⟩

/-- The clamped efficiency is at least its lower clamp bound, hence positive. -/
theorem to_fraction_pos (value : ℚ) (unit : EffUnit) :
    0 < to_fraction value unit :=
  lt_of_lt_of_le (by norm_num) (le_max_left 1e-6 _)

/-- The clamped efficiency never exceeds its upper clamp bound. -/
theorem to_fraction_le (value : ℚ) (unit : EffUnit) :
    to_fraction value unit ≤ 0.999999 :=
  max_le (by norm_num) (min_le_left _ _)

/-- The density derived from a specific gravity is always strictly positive. -/
theorem sg_to_density_pos (sg : ℚ) : 0 < sg_to_density sg :=
  mul_pos (lt_of_lt_of_le (by norm_num) (le_max_left 1e-6 sg))
    (by norm_num [RHO_WATER_4C])

/-- C3: for every efficiency value and either unit tag, `to_fraction` lands
inside [1e-6, 0.999999]; in particular it is never zero, so the division in
`shaft_power_kw` applied to it is a genuine division (multiplying back by the
efficiency recovers the hydraulic power). -/
theorem C3_to_fraction_clamped (value : ℚ) (unit : EffUnit) :
    1e-6 ≤ to_fraction value unit ∧
    to_fraction value unit ≤ 0.999999 ∧
    to_fraction value unit ≠ 0 ∧
    ∀ h : ℚ, shaft_power_kw h (to_fraction value unit) * to_fraction value unit = h := by
  refine ⟨le_max_left _ _, to_fraction_le value unit,
    ne_of_gt (to_fraction_pos value unit), fun h => ?_⟩
  exact div_mul_cancel₀ h (ne_of_gt (to_fraction_pos value unit))

/-- C4: `hydraulic_power_kw` computes (rho*g*Q*H)/1000; it is non-negative on
non-negative inputs, and exactly 0 whenever rho, Q or H is 0. -/
theorem C4_hydraulic_power_props (rho g Q H : ℚ) :
    hydraulic_power_kw rho g Q H = (rho * g * Q * H) / 1000.0 ∧
    (0 ≤ rho → 0 ≤ g → 0 ≤ Q → 0 ≤ H → 0 ≤ hydraulic_power_kw rho g Q H) ∧
    ((rho = 0 ∨ Q = 0 ∨ H = 0) → hydraulic_power_kw rho g Q H = 0) := by
  refine ⟨rfl, fun hr hg hq hH => ?_, fun hz => ?_⟩
  · exact div_nonneg (mul_nonneg (mul_nonneg (mul_nonneg hr hg) hq) hH) (by norm_num)
  · rcases hz with h | h | h <;> simp [hydraulic_power_kw, h]

/-- Witness for C4 at concrete inputs: non-negativity at the default scenario
and exact zero when the density is zero. -/
theorem C4_hydraulic_power_props_witness :
    0 ≤ hydraulic_power_kw 1000 G_SI 0.05 20 ∧
    hydraulic_power_kw 0 G_SI 0.05 20 = 0 :=
  ⟨(C4_hydraulic_power_props 1000 G_SI 0.05 20).2.1 (by norm_num)
      (by norm_num [G_SI]) (by norm_num) (by norm_num),
   (C4_hydraulic_power_props 0 G_SI 0.05 20).2.2 (Or.inl rfl)⟩

/-- C5: for fixed h > 0 the shaft power is strictly decreasing in the
efficiency, and for any efficiency in (0, 1] the shaft power is at least h. -/
theorem C5_shaft_power_monotone (h e1 e2 e : ℚ) (hh : 0 < h) (h1 : 0 < e1)
    (h12 : e1 < e2) (he0 : 0 < e) (he1 : e ≤ 1) :
    shaft_power_kw h e2 < shaft_power_kw h e1 ∧ h ≤ shaft_power_kw h e := by
  constructor
  · exact div_lt_div_of_pos_left hh h1 h12
  · show h ≤ h / e
    rw [le_div_iff₀ he0]
    exact mul_le_of_le_one_right hh.le he1

/-- Witness for C5 at h = 1, efficiencies 0.5 < 0.7 and e = 0.7. -/
theorem C5_shaft_power_monotone_witness :
    shaft_power_kw 1 0.7 < shaft_power_kw 1 0.5 ∧ (1 : ℚ) ≤ shaft_power_kw 1 0.7 :=
  C5_shaft_power_monotone 1 0.5 0.7 0.7 (by norm_num) (by norm_num)
    (by norm_num) (by norm_num) (by norm_num)

/-- C8: `sg_to_density` is max(1e-6, sg) * 1000; at sg = 0 and sg = -5 it
returns exactly 1e-3, and it is always strictly positive. -/
theorem C8_sg_to_density_props (sg : ℚ) :
    sg_to_density sg = max 1e-6 sg * 1000.0 ∧
    sg_to_density 0 = 1e-3 ∧
    sg_to_density (-5) = 1e-3 ∧
    0 < sg_to_density sg := by
  refine ⟨rfl, ?_, ?_, sg_to_density_pos sg⟩
  · norm_num [sg_to_density, RHO_WATER_4C, max_def]
  · norm_num [sg_to_density, RHO_WATER_4C, max_def]

/-- C6 counterexample: the conversion factor applied for US gpm is
0.003785411784/60, not 0.0030785411784/60 as the claim states; the two
differ already at input value 1. -/
theorem C6_counterexample :
    to_si_flow 1 FlowUnit.gpmUS ≠ 0.0030785411784 / 60 := by
  norm_num [to_si_flow, FLOW_UNITS]

/-- C6 (amended): `to_si_flow` multiplies its value by a fixed per-unit
factor: 0.001 for L/s, 0.003785411784/60 for US gpm, and 0.028316846592 for
ft³/s. -/
theorem C6_flow_factors (value : ℚ) :
    to_si_flow value FlowUnit.lPerS = value * 1e-3 ∧
    to_si_flow value FlowUnit.gpmUS = value * (0.003785411784 / 60) ∧
    to_si_flow value FlowUnit.ft3PerS = value * 0.028316846592 := by
  refine ⟨rfl, ?_, rfl⟩
  norm_num [to_si_flow, FLOW_UNITS]

/-- C7: a flow of 100 US gpm converts to 100 × 0.003785411784/60 m³/s,
which is within 1e-6 of 0.0063090 m³/s. -/
theorem C7_gpm_scenario :
    to_si_flow 100 FlowUnit.gpmUS = 100 * (0.003785411784 / 60) ∧
    |to_si_flow 100 FlowUnit.gpmUS - 0.0063090| < 1e-6 := by
  constructor
  · norm_num [to_si_flow, FLOW_UNITS]
  · rw [abs_lt]
    constructor <;> norm_num [to_si_flow, FLOW_UNITS]

/-- C9 counterexample: the constant 1.34102209 is not the metric-horsepower
conversion: already at 1 kW the result differs from 1000/735.49875 by more
than 0.01, far beyond floating-point tolerance. -/
theorem C9_counterexample :
    0.01 < |kw_to_hp 1 - 1000 / 735.49875| := by
  have h : kw_to_hp 1 = 1.34102209 := by norm_num [kw_to_hp]
  rw [h, abs_sub_comm, abs_of_pos (by norm_num)]
  norm_num

/-- C9 (amended): `kw_to_hp` multiplies its input by 1.34102209, and this
constant is the mechanical (imperial) horsepower conversion: for every kw the
result equals the number of 745.699872-watt horsepower units in kw kilowatts
(kw × 1000/745.699872) within 1e-8 relative tolerance. -/
theorem C9_kw_to_hp_mechanical (kw : ℚ) :
    kw_to_hp kw = kw * 1.34102209 ∧
    |kw_to_hp kw - kw * (1000 / 745.699872)| ≤ |kw| * 1e-8 := by
  refine ⟨rfl, ?_⟩
  have h : kw_to_hp kw - kw * (1000 / 745.699872)
      = kw * (1.34102209 - 1000 / 745.699872) := by
    unfold kw_to_hp
    ring
  rw [h, abs_mul]
  refine mul_le_mul_of_nonneg_left ?_ (abs_nonneg kw)
  rw [abs_of_pos (by norm_num)]
  norm_num

/-- C1 counterexample: with the density override checked and a custom density
of 0 (a non-negative value the input widget allows), the density actually used
by the pipeline is 0, not strictly positive — no positive floor is applied on
the override path. -/
theorem C1_counterexample :
    (computePumpPower ⟨0.05, FlowUnit.m3PerS, 20, HeadUnit.m, 1, true, 0, 70,
        EffUnit.percent, G_SI⟩).rho = 0 ∧
    ¬ 0 < (computePumpPower ⟨0.05, FlowUnit.m3PerS, 20, HeadUnit.m, 1, true, 0, 70,
        EffUnit.percent, G_SI⟩).rho := by
  refine ⟨rfl, ?_⟩
  rw [show (computePumpPower ⟨0.05, FlowUnit.m3PerS, 20, HeadUnit.m, 1, true, 0, 70,
      EffUnit.percent, G_SI⟩).rho = 0 from rfl]
  exact lt_irrefl 0

/-- C1 (amended): when the density override is present it is used in place of
the specific-gravity-derived density; on the specific-gravity path the density
used is strictly positive (the specific gravity is floored at 1e-6), but on
the override path the override value is used as-is, with no positive floor. -/
theorem C1_density_selection (inp : Inputs) :
    (inp.rho_override = true → (computePumpPower inp).rho = inp.rho_custom) ∧
    (inp.rho_override = false →
      (computePumpPower inp).rho = sg_to_density inp.sg ∧
      0 < (computePumpPower inp).rho) := by
  constructor
  · intro h
    simp [computePumpPower, h]
  · intro h
    refine ⟨by simp [computePumpPower, h], ?_⟩
    have hr : (computePumpPower inp).rho = sg_to_density inp.sg := by
      simp [computePumpPower, h]
    rw [hr]
    exact sg_to_density_pos inp.sg

/-- Witness for C1 (amended) at concrete inputs: the override value 850 is
used verbatim when the override is on, and the density is positive on the
specific-gravity path. -/
theorem C1_density_selection_witness :
    (computePumpPower ⟨0.05, FlowUnit.m3PerS, 20, HeadUnit.m, 1, true, 850, 70,
        EffUnit.percent, G_SI⟩).rho = 850 ∧
    0 < (computePumpPower ⟨0.05, FlowUnit.m3PerS, 20, HeadUnit.m, 1, false, 1000, 70,
        EffUnit.percent, G_SI⟩).rho :=
  ⟨(C1_density_selection _).1 rfl, ((C1_density_selection _).2 rfl).2⟩

/-- C2 counterexample: at the default scenario the hydraulic power in
horsepower computed by the pipeline is more than 0.002 away from the claimed
13.148 HP (the exact value is 13.1509342788985). -/
theorem C2_counterexample :
    0.002 < |(computePumpPower ⟨0.05, FlowUnit.m3PerS, 20, HeadUnit.m, 1, false, 1000,
        70, EffUnit.percent, 9.80665⟩).P_h_hp - 13.148| := by
  have h : (computePumpPower ⟨0.05, FlowUnit.m3PerS, 20, HeadUnit.m, 1, false, 1000,
      70, EffUnit.percent, 9.80665⟩).P_h_hp = 13.1509342788985 := by
    norm_num [computePumpPower, to_si_flow, to_si_head, to_fraction, sg_to_density,
      hydraulic_power_kw, shaft_power_kw, kw_to_hp, FLOW_UNITS, HEAD_UNITS, EFF_UNITS,
      RHO_WATER_4C, min_def, max_def]
  rw [h, abs_of_pos (by norm_num)]
  norm_num

/-- C2 (amended): for Q = 0.05 m³/s, H = 20 m, SG = 1.0, g = 9.80665,
efficiency 70 %, the pipeline computes hydraulic power exactly 9.80665 kW,
shaft power exactly 14.0095 kW, and hydraulic power in horsepower exactly
13.1509342788985 HP (≈ 13.151, not 13.148). -/
theorem C2_default_scenario :
    (computePumpPower ⟨0.05, FlowUnit.m3PerS, 20, HeadUnit.m, 1, false, 1000, 70,
        EffUnit.percent, 9.80665⟩).P_h_kw = 9.80665 ∧
    (computePumpPower ⟨0.05, FlowUnit.m3PerS, 20, HeadUnit.m, 1, false, 1000, 70,
        EffUnit.percent, 9.80665⟩).P_shaft_kw = 14.0095 ∧
    (computePumpPower ⟨0.05, FlowUnit.m3PerS, 20, HeadUnit.m, 1, false, 1000, 70,
        EffUnit.percent, 9.80665⟩).P_h_hp = 13.1509342788985 := by
  refine ⟨?_, ?_, ?_⟩ <;>
    norm_num [computePumpPower, to_si_flow, to_si_head, to_fraction, sg_to_density,
      hydraulic_power_kw, shaft_power_kw, kw_to_hp, FLOW_UNITS, HEAD_UNITS, EFF_UNITS,
      RHO_WATER_4C, min_def, max_def]

/-- C10: an efficiency input of exactly 100 % (or 1.0 as a fraction) is
clamped to 0.999999, and for every pipeline input whose hydraulic power is
positive the shaft power strictly exceeds the hydraulic power. -/
theorem C10_full_eff_shaft_exceeds (inp : Inputs)
    (hpos : 0 < (computePumpPower inp).P_h_kw) :
    to_fraction 100 EffUnit.percent = 0.999999 ∧
    to_fraction 1 EffUnit.fraction = 0.999999 ∧
    (computePumpPower inp).P_h_kw < (computePumpPower inp).P_shaft_kw := by
  refine ⟨?_, ?_, ?_⟩
  · norm_num [to_fraction, EFF_UNITS, min_def, max_def]
  · norm_num [to_fraction, EFF_UNITS, min_def, max_def]
  · have h1 : (computePumpPower inp).P_shaft_kw =
        (computePumpPower inp).P_h_kw / to_fraction inp.eff_val inp.eff_unit := rfl
    rw [h1, lt_div_iff₀ (to_fraction_pos inp.eff_val inp.eff_unit)]
    exact mul_lt_of_lt_one_right hpos
      (lt_of_le_of_lt (to_fraction_le inp.eff_val inp.eff_unit) (by norm_num))

/-- Witness for C10 at the default scenario with efficiency 100 %: the
hydraulic power is positive and the shaft power strictly exceeds it. -/
theorem C10_full_eff_shaft_exceeds_witness :
    (computePumpPower ⟨0.05, FlowUnit.m3PerS, 20, HeadUnit.m, 1, false, 1000, 100,
        EffUnit.percent, G_SI⟩).P_h_kw
      < (computePumpPower ⟨0.05, FlowUnit.m3PerS, 20, HeadUnit.m, 1, false, 1000, 100,
        EffUnit.percent, G_SI⟩).P_shaft_kw :=
  (C10_full_eff_shaft_exceeds _ (by
    norm_num [computePumpPower, to_si_flow, to_si_head, sg_to_density,
      hydraulic_power_kw, FLOW_UNITS, HEAD_UNITS, RHO_WATER_4C, G_SI, max_def])).2.2

end PumpPower
